import Mathlib

/-!
Shallow embedding of the adaptive GPU control loop of `nvidiactl`
(`cmd/nvidiactl/main.go`, `internal/gpu/gpu.go`), together with proofs
about the moving-average filters, the fan regulator, and the power
regulator.  Machine integers are modelled as `ℤ` (no overflow occurs in
the ranges exercised); Go's truncating integer division is `Int.tdiv`;
Go's `float64` arithmetic is idealised as `ℝ`, with the `int(...)`
conversion modelled as truncation toward zero.
-/

namespace Nvidiactl

/-! ## Constants (cmd/nvidiactl/main.go) -/

def minTemperature : ℤ := 50

def maxPowerLimitChange : ℤ := 10

def wattsPerDegree : ℤ := 5

def powerLimitHysteresis : ℤ := 5

/-- Local constant inside `calculatePowerLimit`. -/
def restorationFactor : ℤ := 2

def temperatureWindowSize : ℕ := 5

def powerLimitWindowSize : ℕ := 5

/-! ## Shared numeric helpers (cmd/nvidiactl/main.go) -/

/-- Go `clamp(value, minValue, maxValue)`. -/
def clamp (value minValue maxValue : ℤ) : ℤ :=
  if value < minValue then minValue
  else if maxValue < value then maxValue
  else value

/-- Go `abs(x)`. -/
def goAbs (x : ℤ) : ℤ := if x < 0 then -x else x

/-- Go `applyHysteresis(newSpeed, currentSpeed, hysteresis)`:
`abs(newSpeed-currentSpeed) <= hysteresis`. -/
def applyHysteresis (newSpeed currentSpeed hysteresis : ℤ) : Bool :=
  decide (goAbs (newSpeed - currentSpeed) ≤ hysteresis)

/-! ## Capability limits (internal/gpu) -/

structure PowerLimits where
  Min : ℤ
  Max : ℤ
  Default : ℤ

structure FanSpeedLimits where
  Min : ℤ
  Max : ℤ

/-! ## Power regulator (cmd/nvidiactl/main.go, calculatePowerLimit) -/

/-- The reduction branch's `adjustment := min(tempDiff*wattsPerDegree,
maxPowerLimitChange)`. -/
def reductionAdjustment (tempDiff : ℤ) : ℤ :=
  min (tempDiff * wattsPerDegree) maxPowerLimitChange

/-- The restoration branch's `adjustment :=
min(-tempDiff*wattsPerDegree*restorationFactor, maxPowerLimitChange)`. -/
def restorationAdjustment (tempDiff : ℤ) : ℤ :=
  min (-tempDiff * wattsPerDegree * restorationFactor) maxPowerLimitChange

/-- Go `calculatePowerLimit(currentTemperature, targetTemperature,
currentFanSpeed, maxFanSpeed, currentPowerLimit)`. -/
def calculatePowerLimit (limits : PowerLimits)
    (currentTemperature targetTemperature currentFanSpeed maxFanSpeed
     currentPowerLimit : ℤ) : ℤ :=
  let tempDiff := currentTemperature - targetTemperature
  if 0 < tempDiff ∧ maxFanSpeed ≤ currentFanSpeed then
    clamp (currentPowerLimit - reductionAdjustment tempDiff) limits.Min limits.Max
  else if tempDiff < 0 then
    clamp (currentPowerLimit + restorationAdjustment tempDiff) limits.Min limits.Max
  else
    currentPowerLimit

/-! ## Moving average filters (internal/gpu/gpu.go `UpdateTemperatureHistory`,
power controller `UpdateHistory`) -/

/-- Go `controller.UpdateTemperatureHistory(temp)`: append, evict the oldest
when the window exceeds `temperatureWindowSize`, and return the new window
together with the truncating-division mean. -/
def controllerUpdateTemperatureHistory (history : List ℤ) (temp : ℤ) :
    List ℤ × ℤ :=
  let h := history ++ [temp]
  let h := if temperatureWindowSize < h.length then h.tail else h
  (h, Int.tdiv h.sum h.length)

/-- Go `powerController.UpdateHistory(limit)`: append, evict the oldest when
the window exceeds `powerLimitWindowSize`, and return the new window together
with the truncating-division mean. -/
def powerControllerUpdateHistory (history : List ℤ) (limit : ℤ) :
    List ℤ × ℤ :=
  let h := history ++ [limit]
  let h := if powerLimitWindowSize < h.length then h.tail else h
  (h, Int.tdiv h.sum h.length)

/-- Feed a sequence of samples into the temperature filter, starting from the
empty window; result is the final window and the last returned average. -/
def feedTemperatureHistory (samples : List ℤ) : List ℤ × ℤ :=
  samples.foldl (fun acc s => controllerUpdateTemperatureHistory acc.1 s) ([], 0)

/-! ## Device commands, fan control and power-limit application
(cmd/nvidiactl/main.go, handleFanControl / handlePowerLimit) -/

inductive DeviceCommand where
  | enableAutoFan : DeviceCommand
  | setFanSpeed (speed : ℤ) : DeviceCommand
  | setPowerLimit (limit : ℤ) : DeviceCommand
deriving DecidableEq

def isSetFanSpeed : DeviceCommand → Bool
  | DeviceCommand.setFanSpeed _ => true
  | _ => false

def isSetPowerLimit : DeviceCommand → Bool
  | DeviceCommand.setPowerLimit _ => true
  | _ => false

/-- Go `handleFanControl`: returns the new `autoFanControl` flag and the
device commands issued this tick.  In the warm branch the code first clears
`autoFanControl`, then issues the speed write only when the hysteresis gate
does not suppress it. -/
def handleFanControl (autoFanControl : Bool)
    (averageTemperature targetFanSpeed currentFanSpeed hysteresis : ℤ) :
    Bool × List DeviceCommand :=
  if averageTemperature ≤ minTemperature then
    if autoFanControl then (true, [])
    else (true, [DeviceCommand.enableAutoFan])
  else
    let auto := false
    if !auto && !(applyHysteresis targetFanSpeed currentFanSpeed hysteresis) then
      (auto, [DeviceCommand.setFanSpeed targetFanSpeed])
    else
      (auto, [])

/-- Go `handlePowerLimit`: in balanced (non-performance) mode the target is
written only when it clears the hysteresis gate; in performance mode the
limit is pinned to the hardware maximum whenever it is below it. -/
def handlePowerLimit (performanceMode : Bool) (limits : PowerLimits)
    (currentPowerLimit targetPowerLimit : ℤ) : List DeviceCommand :=
  if !performanceMode then
    if !(applyHysteresis targetPowerLimit currentPowerLimit powerLimitHysteresis) then
      [DeviceCommand.setPowerLimit targetPowerLimit]
    else []
  else
    if currentPowerLimit < limits.Max then
      [DeviceCommand.setPowerLimit limits.Max]
    else []

/-! ## Fan-speed curve (cmd/nvidiactl/main.go, calculateFanSpeed).
Go computes this part in `float64`; we idealise `float64` arithmetic as `ℝ`
and model the `int(...)` conversion as truncation toward zero. -/

/-- Go's `int(x)` conversion from `float64`: truncation toward zero. -/
noncomputable def trunc (x : ℝ) : ℤ := if 0 ≤ x then ⌊x⌋ else ⌈x⌉

def performancePowFactor : ℝ := 1.5

def normalPowFactor : ℝ := 2.0

/-- Go `calculateFanSpeedPercentage(tempPercentage)`:
`math.Pow(tempPercentage, factor)` with the factor selected by the
performance-mode flag. -/
noncomputable def calculateFanSpeedPercentage (performanceMode : Bool)
    (tempPercentage : ℝ) : ℝ :=
  if performanceMode then tempPercentage ^ performancePowFactor
  else tempPercentage ^ normalPowFactor

/-- Go `calculateFanSpeed(averageTemperature, maxTemperature,
configMaxFanSpeed)` reading the hardware fan-speed limits from the device. -/
noncomputable def calculateFanSpeed (performanceMode : Bool)
    (limits : FanSpeedLimits)
    (averageTemperature maxTemperature configMaxFanSpeed : ℤ) : ℤ :=
  let minFanSpeed := limits.Min
  let maxFanSpeed := min limits.Max configMaxFanSpeed
  if averageTemperature ≤ minTemperature then minFanSpeed
  else if maxTemperature ≤ averageTemperature then maxFanSpeed
  else
    let tempRange : ℝ := ((maxTemperature - minTemperature : ℤ) : ℝ)
    let tempPercentage : ℝ := ((averageTemperature - minTemperature : ℤ) : ℝ) / tempRange
    let fanSpeedPercentage := calculateFanSpeedPercentage performanceMode tempPercentage
    let fanSpeedRange : ℤ := maxFanSpeed - minFanSpeed
    let targetFanSpeed := trunc ((fanSpeedRange : ℝ) * fanSpeedPercentage) + minFanSpeed
    clamp targetFanSpeed minFanSpeed maxFanSpeed

/-! ## Sampling and the control tick (cmd/nvidiactl/main.go, getGPUState /
loop).  The goroutine-with-timeout pattern is modelled by the outcome of each
bounded operation: a read either returns a value, fails, or exceeds its
`operationTimeout`; the history update either completes (yielding the two
averages) or times out. -/

structure GPUState where
  CurrentTemperature : ℤ
  AverageTemperature : ℤ
  CurrentFanSpeed : ℤ
  TargetFanSpeed : ℤ
  CurrentPowerLimit : ℤ
  TargetPowerLimit : ℤ
  AveragePowerLimit : ℤ
deriving DecidableEq

inductive ReadOutcome where
  | ok (value : ℤ) : ReadOutcome
  | failed : ReadOutcome
  | timedOut : ReadOutcome
deriving DecidableEq

inductive HistoryOutcome where
  | completed (avgTemp avgPowerLimit : ℤ) : HistoryOutcome
  | timedOut : HistoryOutcome
deriving DecidableEq

/-- Go `getGPUState`: a failed or timed-out temperature read makes the whole
call return an error; a timed-out history update degrades to using the
current samples as the averages. -/
def getGPUState (tempRead : ReadOutcome)
    (currentFanSpeed currentPowerLimit : ℤ) (history : HistoryOutcome) :
    Except Unit GPUState :=
  match tempRead with
  | ReadOutcome.failed => Except.error ()
  | ReadOutcome.timedOut => Except.error ()
  | ReadOutcome.ok temp =>
    let avgs := match history with
      | HistoryOutcome.completed avgTemp avgPowerLimit => (avgTemp, avgPowerLimit)
      | HistoryOutcome.timedOut => (temp, currentPowerLimit)
    Except.ok
      { CurrentTemperature := temp
        AverageTemperature := avgs.1
        CurrentFanSpeed := currentFanSpeed
        TargetFanSpeed := 0
        CurrentPowerLimit := currentPowerLimit
        TargetPowerLimit := 0
        AveragePowerLimit := avgs.2 }

inductive TickResult where
  | continues (state : GPUState) : TickResult
  | terminates : TickResult
deriving DecidableEq

/-- One iteration of Go `loop`: if `getGPUState` returns an error the loop
returns it and stops; otherwise, outside monitor mode, a failing
`setGPUState` also stops the loop; otherwise the loop proceeds to the next
tick. -/
def loopTick (tempRead : ReadOutcome)
    (currentFanSpeed currentPowerLimit : ℤ) (history : HistoryOutcome)
    (monitorMode setFails : Bool) : TickResult :=
  match getGPUState tempRead currentFanSpeed currentPowerLimit history with
  | Except.error _ => TickResult.terminates
  | Except.ok state =>
    if monitorMode then TickResult.continues state
    else if setFails then TickResult.terminates
    else TickResult.continues state

/-! ## Helper lemmas about clamp -/

theorem le_clamp (v m M : ℤ) (h : m ≤ M) : m ≤ clamp v m M := by
  unfold clamp; split_ifs <;> omega

theorem clamp_le (v m M : ℤ) (h : m ≤ M) : clamp v m M ≤ M := by
  unfold clamp; split_ifs <;> omega

theorem clamp_eq_self (v m M : ℤ) (h1 : m ≤ v) (h2 : v ≤ M) :
    clamp v m M = v := by
  unfold clamp; split_ifs <;> omega

theorem clamp_mono (m M v w : ℤ) (h : m ≤ M) (hvw : v ≤ w) :
    clamp v m M ≤ clamp w m M := by
  unfold clamp; split_ifs <;> omega

/-! ## Claims about the power regulator -/

/-- C3 counterexample: with limits `[100, 300]`, `tempDiff = 0` holds the
current limit `400` unchanged, which lies outside `[minLimit, maxLimit]`:
the Power Regulator's output is not within bounds for every input. -/
theorem calculatePowerLimit_escapes_range :
    calculatePowerLimit ⟨100, 300, 250⟩ 70 70 50 100 400 = 400 ∧
    ¬ calculatePowerLimit ⟨100, 300, 250⟩ 70 70 50 100 400 ≤ (300 : ℤ) := by
  decide

/-- C3 (amended): whenever the current power limit lies within
`[minLimit, maxLimit]`, the Power Regulator's computed target also lies
within `[minLimit, maxLimit]`, in every branch including the hold branch. -/
theorem calculatePowerLimit_mem_range (limits : PowerLimits)
    (currentTemperature targetTemperature currentFanSpeed maxFanSpeed
     currentPowerLimit : ℤ)
    (hlo : limits.Min ≤ currentPowerLimit)
    (hhi : currentPowerLimit ≤ limits.Max) :
    limits.Min ≤ calculatePowerLimit limits currentTemperature
      targetTemperature currentFanSpeed maxFanSpeed currentPowerLimit ∧
    calculatePowerLimit limits currentTemperature targetTemperature
      currentFanSpeed maxFanSpeed currentPowerLimit ≤ limits.Max := by
  have hmM : limits.Min ≤ limits.Max := le_trans hlo hhi
  simp only [calculatePowerLimit]
  split_ifs with h1 h2
  · exact ⟨le_clamp _ _ _ hmM, clamp_le _ _ _ hmM⟩
  · exact ⟨le_clamp _ _ _ hmM, clamp_le _ _ _ hmM⟩
  · exact ⟨hlo, hhi⟩

/-- C3 witness: concrete instantiation of `calculatePowerLimit_mem_range`. -/
theorem calculatePowerLimit_mem_range_witness :
    (100 : ℤ) ≤ calculatePowerLimit ⟨100, 300, 250⟩ 75 70 100 100 200 ∧
    calculatePowerLimit ⟨100, 300, 250⟩ 75 70 100 100 200 ≤ (300 : ℤ) :=
  calculatePowerLimit_mem_range ⟨100, 300, 250⟩ 75 70 100 100 200
    (by decide) (by decide)

/-- C8: in balanced mode, a positive temperature excess with a saturated fan
reduces the limit by `min(tempDiff*wattsPerDegree, maxPowerLimitChange)`
clamped to `[minLimit, maxLimit]`; a positive excess with an unsaturated fan,
or a zero excess, holds the current limit unchanged. -/
theorem calculatePowerLimit_reduce_and_hold (limits : PowerLimits)
    (currentTemperature targetTemperature currentFanSpeed maxFanSpeed
     currentPowerLimit : ℤ) :
    (0 < currentTemperature - targetTemperature →
      maxFanSpeed ≤ currentFanSpeed →
      calculatePowerLimit limits currentTemperature targetTemperature
        currentFanSpeed maxFanSpeed currentPowerLimit =
      clamp (currentPowerLimit -
          min ((currentTemperature - targetTemperature) * wattsPerDegree)
            maxPowerLimitChange)
        limits.Min limits.Max) ∧
    ((0 < currentTemperature - targetTemperature ∧
        currentFanSpeed < maxFanSpeed) ∨
      currentTemperature - targetTemperature = 0 →
      calculatePowerLimit limits currentTemperature targetTemperature
        currentFanSpeed maxFanSpeed currentPowerLimit = currentPowerLimit) := by
  constructor
  · intro hd hf
    simp only [calculatePowerLimit, reductionAdjustment]
    rw [if_pos ⟨hd, hf⟩]
  · intro h
    have h1 : ¬ (0 < currentTemperature - targetTemperature ∧
        maxFanSpeed ≤ currentFanSpeed) := by omega
    have h2 : ¬ currentTemperature - targetTemperature < 0 := by omega
    simp only [calculatePowerLimit]
    rw [if_neg h1, if_neg h2]

/-- C8 witness: concrete instantiation of
`calculatePowerLimit_reduce_and_hold`. -/
theorem calculatePowerLimit_reduce_and_hold_witness :
    calculatePowerLimit ⟨100, 300, 250⟩ 75 70 100 100 200 =
      clamp (200 - min ((75 - 70) * wattsPerDegree) maxPowerLimitChange)
        (100 : ℤ) 300 ∧
    calculatePowerLimit ⟨100, 300, 250⟩ 72 70 40 100 200 = 200 :=
  ⟨(calculatePowerLimit_reduce_and_hold ⟨100, 300, 250⟩ 75 70 100 100 200).1
      (by decide) (by decide),
    (calculatePowerLimit_reduce_and_hold ⟨100, 300, 250⟩ 72 70 40 100 200).2
      (Or.inl (by decide))⟩

/-- C1 counterexample: at `tempDiff = ±2` (fan saturated, limits wide), the
upward restoration step and the downward reduction step are both capped at
`maxPowerLimitChange = 10`, so the upward adjustment is not strictly greater
than the downward one. -/
theorem anti_ratchet_not_strict :
    calculatePowerLimit ⟨0, 1000, 0⟩ 68 70 50 100 500 - 500 = 10 ∧
    500 - calculatePowerLimit ⟨0, 1000, 0⟩ 72 70 100 100 500 = 10 ∧
    ¬ (500 - calculatePowerLimit ⟨0, 1000, 0⟩ 72 70 100 100 500 <
        calculatePowerLimit ⟨0, 1000, 0⟩ 68 70 50 100 500 - 500) := by
  decide

/-- C1 (amended): away from the clamp boundaries, for every positive
temperature difference `d` the downward step at `tempDiff = d` (fan
saturated) equals `reductionAdjustment d` and the upward step at
`tempDiff = -d` equals `restorationAdjustment (-d)`; the upward step is
always at least the downward step, and strictly greater whenever the
reduction is below the per-tick cap `maxPowerLimitChange`. -/
theorem anti_ratchet_asymmetry (limits : PowerLimits)
    (d target cur fs mfs fs2 mfs2 : ℤ)
    (hd : 0 < d) (hsat : mfs ≤ fs)
    (hlo : limits.Min ≤ cur - maxPowerLimitChange)
    (hhi : cur + maxPowerLimitChange ≤ limits.Max) :
    cur - calculatePowerLimit limits (target + d) target fs mfs cur =
      reductionAdjustment d ∧
    calculatePowerLimit limits (target - d) target fs2 mfs2 cur - cur =
      restorationAdjustment (-d) ∧
    cur - calculatePowerLimit limits (target + d) target fs mfs cur ≤
      calculatePowerLimit limits (target - d) target fs2 mfs2 cur - cur ∧
    (d * wattsPerDegree < maxPowerLimitChange →
      cur - calculatePowerLimit limits (target + d) target fs mfs cur <
        calculatePowerLimit limits (target - d) target fs2 mfs2 cur - cur) := by
  have e1 : calculatePowerLimit limits (target + d) target fs mfs cur =
      cur - reductionAdjustment d := by
    simp only [calculatePowerLimit]
    rw [if_pos ⟨by omega, hsat⟩]
    have e : target + d - target = d := by ring
    rw [e]
    refine clamp_eq_self _ _ _ ?_ ?_ <;>
      (simp only [reductionAdjustment, wattsPerDegree,
        maxPowerLimitChange] at *; omega)
  have e2 : calculatePowerLimit limits (target - d) target fs2 mfs2 cur =
      cur + restorationAdjustment (-d) := by
    simp only [calculatePowerLimit]
    rw [if_neg (by omega : ¬ (0 < target - d - target ∧ mfs2 ≤ fs2)),
      if_pos (by omega : target - d - target < 0)]
    have e : target - d - target = -d := by ring
    rw [e]
    refine clamp_eq_self _ _ _ ?_ ?_ <;>
      (simp only [restorationAdjustment, wattsPerDegree, maxPowerLimitChange,
        restorationFactor] at *; omega)
  rw [e1, e2]
  simp only [reductionAdjustment, restorationAdjustment, wattsPerDegree,
    maxPowerLimitChange, restorationFactor]
  omega

/-- C1 witness: concrete instantiation of `anti_ratchet_asymmetry` at
`d = 1`, where the asymmetry is strict. -/
theorem anti_ratchet_asymmetry_witness :
    500 - calculatePowerLimit ⟨0, 1000, 0⟩ (70 + 1) 70 100 100 500 =
      reductionAdjustment 1 ∧
    calculatePowerLimit ⟨0, 1000, 0⟩ (70 - 1) 70 30 100 500 - 500 =
      restorationAdjustment (-1) ∧
    500 - calculatePowerLimit ⟨0, 1000, 0⟩ (70 + 1) 70 100 100 500 ≤
      calculatePowerLimit ⟨0, 1000, 0⟩ (70 - 1) 70 30 100 500 - 500 ∧
    (1 * wattsPerDegree < maxPowerLimitChange →
      500 - calculatePowerLimit ⟨0, 1000, 0⟩ (70 + 1) 70 100 100 500 <
        calculatePowerLimit ⟨0, 1000, 0⟩ (70 - 1) 70 30 100 500 - 500) :=
  anti_ratchet_asymmetry ⟨0, 1000, 0⟩ 1 70 500 100 100 30 100
    (by decide) (by decide) (by decide) (by decide)

/-! ## Claims about the moving average filters -/

/-- C4: the filter appends the sample, evicts the oldest (FIFO) exactly when
the window would exceed 5, and returns the truncating-division mean; the
power filter behaves identically to the temperature filter; feeding
`[70,72,74,76,78]` into an empty window gives window `[70,72,74,76,78]` and
average 74, and a sixth sample 80 gives window `[72,74,76,78,80]` and
average 76. -/
theorem movingAverage_fifo_and_mean :
    feedTemperatureHistory [70, 72, 74, 76, 78] = ([70, 72, 74, 76, 78], 74) ∧
    feedTemperatureHistory [70, 72, 74, 76, 78, 80] =
      ([72, 74, 76, 78, 80], 76) ∧
    (∀ (history : List ℤ) (sample : ℤ), history.length ≤ 5 →
      (controllerUpdateTemperatureHistory history sample).1 =
        (if history.length = 5 then history.tail ++ [sample]
          else history ++ [sample]) ∧
      (controllerUpdateTemperatureHistory history sample).2 =
        Int.tdiv (controllerUpdateTemperatureHistory history sample).1.sum
          (controllerUpdateTemperatureHistory history sample).1.length) ∧
    ∀ (history : List ℤ) (sample : ℤ),
      powerControllerUpdateHistory history sample =
        controllerUpdateTemperatureHistory history sample := by
  refine ⟨by decide, by decide, ?_, fun history sample => rfl⟩
  intro history sample hlen
  refine ⟨?_, rfl⟩
  simp only [controllerUpdateTemperatureHistory, temperatureWindowSize]
  have hl : (history ++ [sample]).length = history.length + 1 := by simp
  by_cases h5 : history.length = 5
  · rw [if_pos (by omega), if_pos h5]
    cases history with
    | nil => simp at h5
    | cons a t => simp
  · rw [if_neg (by omega), if_neg h5]

/-- C4 witness: `movingAverage_fifo_and_mean` applied to a full window and a
sixth sample. -/
theorem movingAverage_fifo_and_mean_witness :
    (controllerUpdateTemperatureHistory [70, 72, 74, 76, 78] 80).1 =
      (if ([70, 72, 74, 76, 78] : List ℤ).length = 5
        then ([70, 72, 74, 76, 78] : List ℤ).tail ++ [80]
        else [70, 72, 74, 76, 78] ++ [80]) :=
  ((movingAverage_fifo_and_mean.2.2.1) [70, 72, 74, 76, 78] 80 (by decide)).1

/-- C10: starting from any window of length at most 5 (the reachable
states), an update leaves a window of length between 1 and 5, so the mean's
division is never by zero; the very first update on an empty window returns
exactly the inserted sample. -/
theorem movingAverage_never_empty :
    (∀ (history : List ℤ) (sample : ℤ), history.length ≤ 5 →
      (1 ≤ (controllerUpdateTemperatureHistory history sample).1.length ∧
        (controllerUpdateTemperatureHistory history sample).1.length ≤ 5) ∧
      (1 ≤ (powerControllerUpdateHistory history sample).1.length ∧
        (powerControllerUpdateHistory history sample).1.length ≤ 5)) ∧
    ∀ sample : ℤ,
      controllerUpdateTemperatureHistory [] sample = ([sample], sample) ∧
      powerControllerUpdateHistory [] sample = ([sample], sample) := by
  constructor
  · intro history sample hlen
    have key : 1 ≤ (controllerUpdateTemperatureHistory history sample).1.length ∧
        (controllerUpdateTemperatureHistory history sample).1.length ≤ 5 := by
      simp only [controllerUpdateTemperatureHistory, temperatureWindowSize]
      split_ifs with h
      · simp only [List.length_tail, List.length_append,
          List.length_singleton] at h ⊢
        omega
      · simp only [List.length_append, List.length_singleton] at h ⊢
        omega
    exact ⟨key, key⟩
  · intro sample
    have key : controllerUpdateTemperatureHistory [] sample =
        ([sample], sample) := by
      simp only [controllerUpdateTemperatureHistory, temperatureWindowSize]
      norm_num [Int.tdiv_one]
    exact ⟨key, key⟩

/-- C10 witness: `movingAverage_never_empty` applied to a window of
length 2. -/
theorem movingAverage_never_empty_witness :
    (1 ≤ (controllerUpdateTemperatureHistory [68, 69] 70).1.length ∧
      (controllerUpdateTemperatureHistory [68, 69] 70).1.length ≤ 5) ∧
    (1 ≤ (powerControllerUpdateHistory [68, 69] 70).1.length ∧
      (powerControllerUpdateHistory [68, 69] 70).1.length ≤ 5) :=
  movingAverage_never_empty.1 [68, 69] 70 (by decide)

/-! ## Claims about the fan regulator's mode machine and hysteresis -/

/-- C5: after a tick, the fan regulator is in Auto mode exactly when the
smoothed temperature is at most `minTemperature`, independent of the prior
mode; in the Auto regime no explicit fan-speed command is issued. -/
theorem fan_mode_state_machine (autoFanControl : Bool)
    (averageTemperature targetFanSpeed currentFanSpeed hysteresis : ℤ) :
    (averageTemperature ≤ minTemperature →
      (handleFanControl autoFanControl averageTemperature targetFanSpeed
          currentFanSpeed hysteresis).1 = true ∧
      (handleFanControl autoFanControl averageTemperature targetFanSpeed
          currentFanSpeed hysteresis).2.any isSetFanSpeed = false) ∧
    (minTemperature < averageTemperature →
      (handleFanControl autoFanControl averageTemperature targetFanSpeed
          currentFanSpeed hysteresis).1 = false) := by
  constructor
  · intro h
    simp only [handleFanControl, if_pos h]
    cases autoFanControl <;> simp [isSetFanSpeed]
  · intro h
    simp only [handleFanControl, if_neg (by omega : ¬ averageTemperature ≤ minTemperature)]
    split_ifs <;> rfl

/-- C5 witness: `fan_mode_state_machine` at a cold tick starting from Manual
mode. -/
theorem fan_mode_state_machine_witness :
    (handleFanControl false 45 60 55 5).1 = true ∧
    (handleFanControl false 45 60 55 5).2.any isSetFanSpeed = false :=
  (fan_mode_state_machine false 45 60 55 5).1 (by decide)

/-- C7: when the computed target is within the hysteresis dead-band of the
current value, the apply step issues no write of the target: the fan
regulator issues no fan-speed command, and the balanced-mode power apply
step issues no command at all, so the previously commanded value is
retained. -/
theorem hysteresis_dead_band (autoFanControl : Bool)
    (averageTemperature targetFanSpeed currentFanSpeed hysteresis : ℤ)
    (limits : PowerLimits) (currentPowerLimit targetPowerLimit : ℤ) :
    (goAbs (targetFanSpeed - currentFanSpeed) ≤ hysteresis →
      (handleFanControl autoFanControl averageTemperature targetFanSpeed
          currentFanSpeed hysteresis).2.any isSetFanSpeed = false) ∧
    (goAbs (targetPowerLimit - currentPowerLimit) ≤ powerLimitHysteresis →
      handlePowerLimit false limits currentPowerLimit targetPowerLimit = []) := by
  constructor
  · intro h
    have hA : applyHysteresis targetFanSpeed currentFanSpeed hysteresis = true := by
      simp [applyHysteresis, h]
    simp only [handleFanControl]
    split_ifs with h1 h2 h3
    · rfl
    · rfl
    · simp [hA] at h3
    · rfl
  · intro h
    have hA : applyHysteresis targetPowerLimit currentPowerLimit
        powerLimitHysteresis = true := by
      simp [applyHysteresis, h]
    simp [handlePowerLimit, hA]

/-- C7 witness: `hysteresis_dead_band` with both targets inside their
dead-bands. -/
theorem hysteresis_dead_band_witness :
    (handleFanControl true 60 52 50 5).2.any isSetFanSpeed = false ∧
    handlePowerLimit false ⟨100, 300, 250⟩ 200 203 = [] :=
  ⟨(hysteresis_dead_band true 60 52 50 5 ⟨100, 300, 250⟩ 200 203).1 (by decide),
    (hysteresis_dead_band true 60 52 50 5 ⟨100, 300, 250⟩ 200 203).2 (by decide)⟩

/-! ## Claims about sampling failure and the control tick -/

/-- C2 counterexample: a timed-out (or failed) temperature read does not
degrade and continue — the tick terminates the control loop. -/
theorem sampling_failure_terminates :
    loopTick ReadOutcome.timedOut 50 200 (HistoryOutcome.completed 60 210)
      false false = TickResult.terminates ∧
    loopTick ReadOutcome.failed 50 200 (HistoryOutcome.completed 60 210)
      false false = TickResult.terminates := by
  decide

/-- C2 (amended): a failed or timed-out temperature read is fatal —
`getGPUState` returns an error and the loop stops instead of continuing;
only a timed-out history update degrades, falling back to the current
samples as the averages, after which the tick continues. -/
theorem sampling_failure_fatal_history_degrades (fan power : ℤ)
    (history : HistoryOutcome) (monitorMode setFails : Bool) (temp : ℤ) :
    (getGPUState ReadOutcome.failed fan power history = Except.error () ∧
      getGPUState ReadOutcome.timedOut fan power history = Except.error () ∧
      loopTick ReadOutcome.failed fan power history monitorMode setFails =
        TickResult.terminates ∧
      loopTick ReadOutcome.timedOut fan power history monitorMode setFails =
        TickResult.terminates) ∧
    (getGPUState (ReadOutcome.ok temp) fan power HistoryOutcome.timedOut =
      Except.ok ⟨temp, temp, fan, 0, power, 0, power⟩ ∧
      loopTick (ReadOutcome.ok temp) fan power HistoryOutcome.timedOut
        monitorMode false =
      TickResult.continues ⟨temp, temp, fan, 0, power, 0, power⟩) := by
  refine ⟨⟨rfl, rfl, rfl, rfl⟩, rfl, ?_⟩
  cases monitorMode <;> rfl

/-! ## Helper lemmas about the fan-speed curve -/

theorem trunc_mono {x y : ℝ} (h : x ≤ y) : trunc x ≤ trunc y := by
  unfold trunc
  split_ifs with hx hy hy2
  · exact Int.floor_le_floor h
  · exact absurd (hx.trans h) hy
  · have hx0 : x ≤ 0 := le_of_lt (lt_of_not_le hx)
    exact le_trans (Int.ceil_le.mpr (by exact_mod_cast hx0))
      (Int.floor_nonneg.mpr hy2)
  · exact Int.ceil_le_ceil h

theorem calculateFanSpeedPercentage_nonneg (performanceMode : Bool)
    {p : ℝ} (hp : 0 ≤ p) :
    0 ≤ calculateFanSpeedPercentage performanceMode p := by
  unfold calculateFanSpeedPercentage
  split_ifs <;> exact Real.rpow_nonneg hp _

theorem calculateFanSpeedPercentage_mono (performanceMode : Bool)
    {p q : ℝ} (hp : 0 ≤ p) (hpq : p ≤ q) :
    calculateFanSpeedPercentage performanceMode p ≤
      calculateFanSpeedPercentage performanceMode q := by
  unfold calculateFanSpeedPercentage performancePowFactor normalPowFactor
  split_ifs <;> exact Real.rpow_le_rpow hp hpq (by norm_num)

/-! ## Claims about the fan-speed curve -/

/-- C6: the target-speed computation returns the hardware minimum at or
below `minTemperature`, the configured cap intersected with the hardware
maximum at or above `maxTemperature`, and otherwise
`min + (cap - min) * p^exponent` truncated and clamped to `[min, cap]`,
with `p` the normalized position in the temperature band; in the spec's
scenario (`limits 30..100`, cap `100`, `maxTemp 80`, balanced mode,
smoothed temperature `65`) the result is `47`. -/
theorem fan_curve_cases (performanceMode : Bool) (limits : FanSpeedLimits)
    (t maxTemperature cfg : ℤ)
    (hmt : minTemperature < maxTemperature) :
    (t ≤ minTemperature →
      calculateFanSpeed performanceMode limits t maxTemperature cfg =
        limits.Min) ∧
    (maxTemperature ≤ t →
      calculateFanSpeed performanceMode limits t maxTemperature cfg =
        min limits.Max cfg) ∧
    (minTemperature < t → t < maxTemperature →
      calculateFanSpeed performanceMode limits t maxTemperature cfg =
        clamp
          (trunc (((min limits.Max cfg - limits.Min : ℤ) : ℝ) *
              calculateFanSpeedPercentage performanceMode
                (((t - minTemperature : ℤ) : ℝ) /
                  ((maxTemperature - minTemperature : ℤ) : ℝ))) +
            limits.Min)
          limits.Min (min limits.Max cfg)) ∧
    calculateFanSpeed false ⟨30, 100⟩ 65 80 100 = 47 := by
  refine ⟨?_, ?_, ?_, ?_⟩
  · intro h
    simp only [calculateFanSpeed]
    rw [if_pos h]
  · intro h
    simp only [calculateFanSpeed]
    rw [if_neg (by omega : ¬ t ≤ minTemperature), if_pos h]
  · intro hlow hhigh
    simp only [calculateFanSpeed]
    rw [if_neg (by omega : ¬ t ≤ minTemperature),
      if_neg (by omega : ¬ maxTemperature ≤ t)]
  · simp only [calculateFanSpeed, minTemperature]
    rw [if_neg (by norm_num : ¬ (65 : ℤ) ≤ 50),
      if_neg (by norm_num : ¬ (80 : ℤ) ≤ 65)]
    have e1 : calculateFanSpeedPercentage false
        (((65 - 50 : ℤ) : ℝ) / ((80 - 50 : ℤ) : ℝ)) = 1 / 4 := by
      have h : (((65 - 50 : ℤ) : ℝ) / ((80 - 50 : ℤ) : ℝ)) = 1 / 2 := by
        norm_num
      unfold calculateFanSpeedPercentage
      rw [if_neg (by decide : ¬ false = true), h,
        show normalPowFactor = ((2 : ℕ) : ℝ) by norm_num [normalPowFactor],
        Real.rpow_natCast]
      norm_num
    rw [e1]
    have e2 : trunc
        (((min (100 : ℤ) 100 - (30 : ℤ) : ℤ) : ℝ) * (1 / 4)) = 17 := by
      rw [trunc, if_pos (by norm_num)]
      norm_num
    rw [e2]
    decide

/-- C6 witness: the spec scenario, obtained from `fan_curve_cases`. -/
theorem fan_curve_cases_witness :
    calculateFanSpeed false ⟨30, 100⟩ 65 80 100 = 47 :=
  (fan_curve_cases false ⟨30, 100⟩ 65 80 100 (by decide)).2.2.2

/-- C9 counterexample: with hardware limits `30..100` but a configured cap
of `10` (below the hardware minimum), the computed speed drops from 30 at
smoothed temperature 50 to 10 at 51, although `50 ≤ 51` and both lie in
`[minTemperature, maxTemp] = [50, 80]`: the curve is not monotone for every
input. -/
theorem fan_speed_not_monotone :
    calculateFanSpeed false ⟨30, 100⟩ 51 80 10 <
      calculateFanSpeed false ⟨30, 100⟩ 50 80 10 := by
  have e50 : calculateFanSpeed false ⟨30, 100⟩ 50 80 10 = 30 := by
    simp only [calculateFanSpeed, minTemperature]
    rw [if_pos (by norm_num : (50 : ℤ) ≤ 50)]
  have e51 : calculateFanSpeed false ⟨30, 100⟩ 51 80 10 = 10 := by
    simp only [calculateFanSpeed, minTemperature]
    rw [if_neg (by norm_num : ¬ (51 : ℤ) ≤ 50),
      if_neg (by norm_num : ¬ (80 : ℤ) ≤ 51)]
    have e1 : calculateFanSpeedPercentage false
        (((51 - 50 : ℤ) : ℝ) / ((80 - 50 : ℤ) : ℝ)) = 1 / 900 := by
      have h : (((51 - 50 : ℤ) : ℝ) / ((80 - 50 : ℤ) : ℝ)) = 1 / 30 := by
        norm_num
      unfold calculateFanSpeedPercentage
      rw [if_neg (by decide : ¬ false = true), h,
        show normalPowFactor = ((2 : ℕ) : ℝ) by norm_num [normalPowFactor],
        Real.rpow_natCast]
      norm_num
    rw [e1]
    have e2 : trunc
        (((min (100 : ℤ) 10 - (30 : ℤ) : ℤ) : ℝ) * (1 / 900)) = 0 := by
      rw [trunc, if_neg (by norm_num)]
      norm_num
    rw [e2]
    decide
  rw [e50, e51]
  norm_num

/-- C9 (amended): provided the effective cap (hardware max intersected with
the configured max) is at least the hardware minimum speed, the computed
target fan speed is monotonically non-decreasing in the smoothed temperature
on `[minTemperature, maxTemp]`, for both convexity exponents. -/
theorem fan_speed_monotone (performanceMode : Bool)
    (limits : FanSpeedLimits) (maxTemperature cfg t1 t2 : ℤ)
    (hcap : limits.Min ≤ min limits.Max cfg)
    (_hlow : minTemperature ≤ t1) (h12 : t1 ≤ t2)
    (_hhigh : t2 ≤ maxTemperature) :
    calculateFanSpeed performanceMode limits t1 maxTemperature cfg ≤
      calculateFanSpeed performanceMode limits t2 maxTemperature cfg := by
  simp only [calculateFanSpeed, minTemperature] at *
  by_cases ha1 : t1 ≤ 50
  · rw [if_pos ha1]
    split_ifs with hb1 hb2
    · exact le_refl _
    · exact hcap
    · exact le_clamp _ _ _ hcap
  · rw [if_neg ha1, if_neg (by omega : ¬ t2 ≤ 50)]
    by_cases hc1 : maxTemperature ≤ t1
    · rw [if_pos hc1, if_pos (by omega)]
    · rw [if_neg hc1]
      by_cases hc2 : maxTemperature ≤ t2
      · rw [if_pos hc2]
        exact clamp_le _ _ _ hcap
      · rw [if_neg hc2]
        apply clamp_mono _ _ _ _ hcap
        apply add_le_add_right
        apply trunc_mono
        have hr : (0 : ℝ) ≤ ((min limits.Max cfg - limits.Min : ℤ) : ℝ) := by
          exact_mod_cast (by omega : (0 : ℤ) ≤ min limits.Max cfg - limits.Min)
        apply mul_le_mul_of_nonneg_left _ hr
        have hR : (0 : ℝ) < ((maxTemperature - 50 : ℤ) : ℝ) := by
          exact_mod_cast (by omega : (0 : ℤ) < maxTemperature - 50)
        have hp1 : (0 : ℝ) ≤ ((t1 - 50 : ℤ) : ℝ) := by
          exact_mod_cast (by omega : (0 : ℤ) ≤ t1 - 50)
        apply calculateFanSpeedPercentage_mono performanceMode
          (div_nonneg hp1 (le_of_lt hR))
        apply (div_le_div_iff_of_pos_right hR).mpr
        exact_mod_cast (by omega : t1 - 50 ≤ t2 - 50)

/-- C9 witness: `fan_speed_monotone` at the spec's configuration,
temperatures 60 and 70. -/
theorem fan_speed_monotone_witness :
    calculateFanSpeed false ⟨30, 100⟩ 60 80 100 ≤
      calculateFanSpeed false ⟨30, 100⟩ 70 80 100 :=
  fan_speed_monotone false ⟨30, 100⟩ 80 100 60 70
    (by decide) (by decide) (by decide) (by decide)

end Nvidiactl
